import Mathlib

/-!
Verification of the BIO-RED submission-validation engine
(`scripts/validate_submission.py`) against its design specification.

The Python engine is shallowly embedded: spreadsheet cells become
`Option CellVal` (with `none` for an absent/null cell, matching pandas
`NaN`/`None`), a worksheet becomes a list of rows of cells, the
per-template schemas of `TEMPLATE_SCHEMAS` become a list of `Schema`
records, and each validation check becomes a pure function from schema
and table to its recorded errors, warnings and result entry.  Machine
floats in the source are modelled by exact rationals; numeric worksheet
cells are modelled as integers (no verified claim depends on fractional
cell values or on float rounding).  The wall-clock timestamp placed in
the report metadata is outside the model, as the idempotence claim
explicitly excludes it.
-/

deriving instance DecidableEq for Except

namespace BioRed

/-- A non-empty spreadsheet cell value as seen via `openpyxl`
`values_only=True`: either text or a number. -/
inductive CellVal where
  | str (s : String)
  | num (n : Int)
deriving DecidableEq, Repr

/-- A cell: `none` models an empty cell (`None` from openpyxl, `NaN` in
the derived pandas frame). -/
abbrev Cell := Option CellVal

/-- Python truthiness of a cell as used by `any(row)` and
`if cell` in `_worksheet_to_dataframe`: `None`, `0` and `""` are falsy. -/
def cellTruthy : Cell → Bool
  | none => false
  | some (.str s) => s ≠ ""
  | some (.num n) => n ≠ 0

/-- Python `str(...)` applied to a raw cell value. -/
def textify : CellVal → String
  | .str s => s
  | .num n => toString n

/-- `str(cell)` for a possibly-empty cell (only reached on truthy cells
in the source; `none` is rendered as the empty string). -/
def textifyCell : Cell → String
  | none => ""
  | some v => textify v

/-- One row of a worksheet, as a tuple of cell values. -/
abbrev Row := List Cell

/-- The raw grid of one worksheet (`ws.iter_rows(values_only=True)`). -/
abbrev Grid := List Row

/-- The pandas DataFrame produced by `_worksheet_to_dataframe`: ordered
column names plus data rows; a row's cell for column `i` is its `i`-th
entry. -/
structure Table where
  columns : List String
  rows : List Row
deriving DecidableEq, Repr

/-- Index of the first column with the given (cleaned) name. -/
def colIndexAux (field : String) : List String → Option Nat
  | [] => none
  | c :: t => if c = field then some 0 else (colIndexAux field t).map (· + 1)

/-- `field in df.columns`. -/
def Table.hasCol (df : Table) (field : String) : Bool :=
  df.columns.contains field

/-- The cell of row `r` in column `field` (missing entries in a short
row behave as `NaN`). -/
def Table.cellAt (df : Table) (field : String) (r : Row) : Cell :=
  match colIndexAux field df.columns with
  | none => none
  | some i => (r.get? i).join

/-- The column `df[field]` as the list of its cells, one per row. -/
def Table.colCells (df : Table) (field : String) : List Cell :=
  df.rows.map (df.cellAt field)

/-- The `enhancement_targets` sub-dictionary of a schema. -/
structure EnhancementTargets where
  minEnhancedOrgs : Nat
  minFieldsPerOrg : Nat
  minNewOrgs : Nat
deriving DecidableEq, Repr

/-- One entry of `TEMPLATE_SCHEMAS`. -/
structure Schema where
  requiredFields : List String
  optionalFields : List String
  dropdowns : List (String × List String)
  sheetName : String
  twoTab : Bool
  enhancementTargets : Option EnhancementTargets
deriving DecidableEq, Repr

/-- Schema of template `1_Organization_Registry`. -/
def organizationRegistrySchema : Schema :=
  { requiredFields := ["Organization_ID", "Organization_Name", "Type", "Country",
      "NUTS2_Region", "City", "Website", "Specialization"]
    optionalFields := ["Size", "Employees", "Founded_Year", "Annual_Revenue",
      "EU_Projects_Count", "Total_EU_Funding", "Key_Assets",
      "Innovation_Outputs", "Digital_Capacity", "Sustainability_Focus",
      "Regional_Partnerships", "Market_Reach", "Contact_Email", "Notes"]
    dropdowns := [
      ("Type", ["University", "Research_Center", "SME", "Large_Company",
        "Hospital", "Government_Agency", "NGO", "Innovation_Hub",
        "Cluster_Organization", "NGO_Association", "Other"]),
      ("Country", ["PT", "EL", "LT", "BG", "FR", "DK", "SE"]),
      ("NUTS2_Region", ["PT16", "EL54", "LT01", "BG41", "FR10", "DK01", "SE12"]),
      ("Digital_Capacity", ["High", "Medium", "Low", "None", ""]),
      ("Sustainability_Focus", ["High", "Medium", "Low", "None", ""])]
    sheetName := "Your Input"
    twoTab := true
    enhancementTargets := some ⟨30, 3, 10⟩ }

/-- Schema of template `2_Stakeholder_Mapping`. -/
def stakeholderMappingSchema : Schema :=
  { requiredFields := ["Stakeholder_ID", "Name", "Organization", "Role",
      "Influence", "Interest"]
    optionalFields := ["Email", "Phone", "Engagement_Type", "Current_Relationship",
      "Engagement_History", "Notes"]
    dropdowns := [
      ("Role", ["Researcher", "Clinician", "Industry_Executive", "Policy_Maker",
        "Investor", "Entrepreneur", "Patient_Advocate", "NGO_Representative", "Other"]),
      ("Influence", ["High", "Medium", "Low"]),
      ("Interest", ["High", "Medium", "Low"]),
      ("Engagement_Type", ["Active_Collaboration", "Consultation",
        "Information_Sharing", "Monitoring"])]
    sheetName := "Stakeholder Mapping"
    twoTab := false
    enhancementTargets := none }

/-- Schema of template `3_Value_Chain_Mapping`. -/
def valueChainMappingSchema : Schema :=
  { requiredFields := ["Chain_ID", "Chain_Name", "Description", "Stage", "Key_Actors"]
    optionalFields := ["Technology_Drivers", "Bottlenecks", "Opportunities",
      "Growth_Potential", "Regional_Advantage", "Notes"]
    dropdowns := [
      ("Stage", ["Research", "Development", "Clinical_Trials", "Manufacturing",
        "Distribution", "Market_Access", "Post-Market"]),
      ("Growth_Potential", ["High", "Medium", "Low"])]
    sheetName := "Value Chain Mapping"
    twoTab := false
    enhancementTargets := none }

/-- Schema of template `4_Funding_Sources`. -/
def fundingSourcesSchema : Schema :=
  { requiredFields := ["Funding_ID", "Program_Name", "Type", "Source_Organization", "Level"]
    optionalFields := ["Budget_Range", "Call_Frequency", "Eligibility", "Success_Rate",
      "Application_Deadline", "Website", "Contact", "Notes"]
    dropdowns := [
      ("Type", ["Grant", "Loan", "Equity", "Tax_Incentive", "Prize", "Other"]),
      ("Level", ["EU", "National", "Regional", "Private", "Mixed"]),
      ("Call_Frequency", ["Annual", "Bi-annual", "Quarterly", "Rolling", "One-time"])]
    sheetName := "Funding Sources"
    twoTab := false
    enhancementTargets := none }

/-- Schema of template `5_Focus_Group_Notes`. -/
def focusGroupNotesSchema : Schema :=
  { requiredFields := ["Session_Date", "Location", "Facilitator", "Number_of_Participants"]
    optionalFields := ["Participant_List", "Discussion_Topics", "Key_Insights",
      "Challenges_Identified", "Recommendations", "Follow_up_Actions", "Notes"]
    dropdowns := []
    sheetName := "Focus Group Notes"
    twoTab := false
    enhancementTargets := none }

/-- Schema of template `6_Interview_Summary`. -/
def interviewSummarySchema : Schema :=
  { requiredFields := ["Interview_ID", "Date", "Interviewee_Name", "Organization",
      "Position", "Sector"]
    optionalFields := ["Organization_Size", "Key_Challenges", "Opportunities",
      "Innovation_Examples", "Collaboration_Needs", "Policy_Gaps",
      "Investment_Barriers", "Success_Factors", "Recommendations", "Notes"]
    dropdowns := [
      ("Sector", ["Research", "Industry", "Clinical", "Policy",
        "Investment", "NGO", "Other"]),
      ("Organization_Size", ["Small", "Medium", "Large"])]
    sheetName := "Interview Summary"
    twoTab := false
    enhancementTargets := none }

/-- Schema of template `7_Business_Case_Profile`. -/
def businessCaseProfileSchema : Schema :=
  { requiredFields := ["Case_ID", "Company_Name", "Founded_Year", "Technology",
      "Innovation_Type", "Scalability", "Impact_Potential"]
    optionalFields := ["Founders", "Employees", "Funding_Stage", "Total_Funding",
      "Revenue_Model", "Target_Market", "Key_Partners", "IP_Portfolio",
      "Clinical_Pipeline", "Regulatory_Status", "Challenges",
      "Support_Needs", "Notes"]
    dropdowns := [
      ("Funding_Stage", ["Pre-seed", "Seed", "Series_A", "Series_B",
        "Series_C+", "Bootstrapped"]),
      ("Innovation_Type", ["Disruptive", "Incremental", "Platform", "Business_Model"]),
      ("Scalability", ["High", "Medium", "Low"]),
      ("Impact_Potential", ["High", "Medium", "Low"])]
    sheetName := "Business Case Profile"
    twoTab := false
    enhancementTargets := none }

/-- Schema of template `8_Trend_Brief`. -/
def trendBriefSchema : Schema :=
  { requiredFields := ["Trend_ID", "Trend_Name", "Description", "Technology_Drivers",
      "Market_Potential", "Regional_Relevance"]
    optionalFields := ["Timeframe", "Key_Players", "Investment_Activity", "Policy_Support",
      "Barriers", "Opportunities", "Notes"]
    dropdowns := [
      ("Market_Potential", ["High", "Medium", "Low"]),
      ("Regional_Relevance", ["High", "Medium", "Low"]),
      ("Timeframe", ["Near-term_1-2y", "Mid-term_3-5y", "Long-term_5+y"])]
    sheetName := "Trend Brief"
    twoTab := false
    enhancementTargets := none }

/-- Schema of template `9_Policy_Analysis`. -/
def policyAnalysisSchema : Schema :=
  { requiredFields := ["Policy_ID", "Policy_Name", "Description", "Impact_Assessment",
      "Implementation_Status"]
    optionalFields := ["Notes"]
    dropdowns := [
      ("Implementation_Status", ["Proposed", "In_Progress", "Implemented", "Under_Review"])]
    sheetName := "Policy Analysis"
    twoTab := false
    enhancementTargets := none }

/-- The `TEMPLATE_SCHEMAS` registry, in dictionary insertion order. -/
def TEMPLATE_SCHEMAS : List (String × Schema) :=
  [("1_Organization_Registry", organizationRegistrySchema),
   ("2_Stakeholder_Mapping", stakeholderMappingSchema),
   ("3_Value_Chain_Mapping", valueChainMappingSchema),
   ("4_Funding_Sources", fundingSourcesSchema),
   ("5_Focus_Group_Notes", focusGroupNotesSchema),
   ("6_Interview_Summary", interviewSummarySchema),
   ("7_Business_Case_Profile", businessCaseProfileSchema),
   ("8_Trend_Brief", trendBriefSchema),
   ("9_Policy_Analysis", policyAnalysisSchema)]

/-- `COMPLETENESS_TARGET = 0.95`. -/
def COMPLETENESS_TARGET : ℚ := 19 / 20

/-! ## String utilities

Python's string primitives, implemented structurally over character
lists so that every concrete validation run below evaluates inside the
kernel. -/

/-- Python `str.split(c)` on a character list (empty parts kept). -/
def splitOnCharAux (c : Char) (cur : List Char) : List Char → List (List Char)
  | [] => [cur.reverse]
  | x :: t =>
    if x = c then cur.reverse :: splitOnCharAux c [] t
    else splitOnCharAux c (x :: cur) t

/-- Python `str.strip()` on a character list. -/
def stripChars (l : List Char) : List Char :=
  ((l.dropWhile Char.isWhitespace).reverse.dropWhile Char.isWhitespace).reverse

/-- Python `str.strip()`. -/
def pyStrip (s : String) : String :=
  String.mk (stripChars s.data)

/-- Python `s.startswith(pre)`. -/
def pyStartsWith (s pre : String) : Bool :=
  pre.data.isPrefixOf s.data

/-- Python `s.endswith(suf)`. -/
def pyEndsWith (s suf : String) : Bool :=
  suf.data.isSuffixOf s.data

/-- Python `s.lower()`. -/
def pyLower (s : String) : String :=
  String.mk (s.data.map Char.toLower)

/-! ## Template identification (`SubmissionValidator._identify_template`) -/

/-- `template_name.split('_')[0]`: the token before the first underscore. -/
def templateToken (name : String) : String :=
  String.mk ((splitOnCharAux '_' [] name.data).headD [])

/-- `_identify_template`: first registry entry whose leading token is a
name prefix of the file name wins; no match raises
`ValueError(f"Unknown template type: {filename}")`, modelled as
`Except.error`.  The exception is raised from the constructor, before
any validation runs. -/
def identifyTemplate (filename : String) : Except String (String × Schema) :=
  match TEMPLATE_SCHEMAS.find? (fun p => pyStartsWith filename (templateToken p.1)) with
  | some p => .ok p
  | none => .error ("Unknown template type: " ++ filename)

/-! ## Tabular extraction (`SubmissionValidator._worksheet_to_dataframe`) -/

/-- Substring test on character lists (Python `needle in hay`). -/
def subChars (needle : List Char) : List Char → Bool
  | [] => needle.isEmpty
  | c :: t => needle.isPrefixOf (c :: t) || subChars needle t

/-- Python `needle in hay` on strings. -/
def strHas (hay needle : String) : Bool :=
  subChars needle.data hay.data

/-- `any(row)` under Python truthiness. -/
def rowAny (row : Row) : Bool :=
  row.any cellTruthy

/-- `' '.join([str(cell) for cell in row if cell])`. -/
def rowStr (row : Row) : String :=
  " ".intercalate ((row.filter cellTruthy).map textifyCell)

/-- The header-row heuristic of the scan loop: the joined truthy-cell
text contains `_ID` or `_Name`, or both `Organization` and `Type`. -/
def isHeaderRow (row : Row) : Bool :=
  let s := rowStr row
  strHas s "_ID" || strHas s "_Name" || (strHas s "Organization" && strHas s "Type")

/-- `[str(cell).strip() if cell else f"Column_{i}" for i, cell in enumerate(row)]`. -/
def headersOfRow (row : Row) : List String :=
  row.enum.map (fun p =>
    if cellTruthy p.2 then pyStrip (textifyCell p.2) else "Column_" ++ toString p.1)

/-- The header scan over the first 50 rows: the first truthy row that
looks like a header, returned with its 1-based row number. -/
def findHeader (grid : Grid) : Option (Nat × List String) :=
  ((grid.take 50).enum.find? (fun p => rowAny p.2 && isHeaderRow p.2)).map
    (fun p => (p.1 + 1, headersOfRow p.2))

/-- The fallback scan: the first truthy row among the first 20 rows. -/
def findFallback (grid : Grid) : Option (Nat × List String) :=
  ((grid.take 20).enum.find? (fun p => rowAny p.2)).map
    (fun p => (p.1 + 1, headersOfRow p.2))

/-- `(header_row_num, headers)` after both scans; `(0, [])` when the
sheet has no usable row at all. -/
def headerInfo (grid : Grid) : Nat × List String :=
  match findHeader grid with
  | some hi => hi
  | none =>
    match findFallback grid with
    | some hi => hi
    | none => (0, [])

/-- `str(row[0]) if row[0] else ""` (only evaluated on truthy rows, so
the row is never empty when this matters). -/
def firstCellStr (row : Row) : String :=
  match row.head? with
  | some c => if cellTruthy c then textifyCell c else ""
  | none => ""

/-- Data-row filter of the extraction loop: keep non-empty rows whose
first cell does not start a `SECTION` banner and carries no asterisk. -/
def keepDataRow (row : Row) : Bool :=
  rowAny row &&
    !(pyStartsWith (firstCellStr row) "SECTION") &&
    !((firstCellStr row).data.contains '*')

/-- Column-name cleanup
(`df.columns.str.replace('*', '', regex=False).str.strip()`). -/
def cleanName (s : String) : String :=
  String.mk (stripChars (s.data.filter (fun c => c ≠ '*')))

/-- Cleanup applied to every column name. -/
def cleanColumns (l : List String) : List String :=
  l.map cleanName

/-- `_worksheet_to_dataframe`.  The surviving data rows are those
strictly after the header row that pass `keepDataRow`; the column list
is the header list truncated to the width of the first data row
(`headers[:len(data[0]) if data else 0]`) — in particular it is empty
when no data row survives.  The `Except.error` branches model the
`ValueError` pandas raises when the column list cannot be matched to
the data width; a rectangular grid (as `openpyxl.iter_rows` always
yields) never reaches them. -/
def worksheetToDataframe (grid : Grid) : Except String Table :=
  let hnum := (headerInfo grid).1
  let headers := (headerInfo grid).2
  let data := (grid.drop hnum).filter keepDataRow
  let ncols := match data.head? with
    | some r => r.length
    | none => 0
  let cols := headers.take ncols
  if cols.length ≠ ncols then
    .error (toString cols.length ++ " columns passed, passed data had " ++
      toString ncols ++ " columns")
  else if data.any (fun r => r.length ≠ ncols) then
    .error "inconsistent row lengths"
  else
    .ok { columns := cleanColumns cols, rows := data }

/-! ## Schema compliance (`SubmissionValidator._check_schema_compliance`) -/

/-- `[field for field in required_fields if field not in df.columns]`,
in the schema's declared order. -/
def missingFields (s : Schema) (df : Table) : List String :=
  s.requiredFields.filter (fun f => !df.hasCol f)

/-- `[f for f in required_fields if f in df.columns]`. -/
def presentRequired (s : Schema) (df : Table) : List String :=
  s.requiredFields.filter (fun f => df.hasCol f)

/-- Error messages the schema-compliance check appends to the
validator's error list. -/
def schemaComplianceErrors (s : Schema) (df : Table) : List String :=
  if missingFields s df = [] then []
  else ["Missing required columns: " ++ ", ".intercalate (missingFields s df)]

/-- Status recorded under `validation_results["schema_compliance"]`. -/
def schemaComplianceStatus (s : Schema) (df : Table) : String :=
  if missingFields s df = [] then "PASS" else "FAIL"

/-! ## Data types (`SubmissionValidator._check_data_types`) -/

/-- The fixed numeric-semantic field list of the source. -/
def numericFields : List String :=
  ["Employees", "Founded_Year", "Annual_Revenue",
   "EU_Projects_Count", "Total_EU_Funding", "Number_of_Participants"]

/-- `url_fields = ["Website"]`. -/
def urlFields : List String := ["Website"]

/-- `email_fields = ["Email", "Contact_Email"]`. -/
def emailFields : List String := ["Email", "Contact_Email"]

/-- Whether a text cell parses under `pd.to_numeric`: optional sign,
digits, optional single decimal point, at least one digit.  Scientific
notation is omitted from the model; no verified claim depends on it. -/
def isNumericStr (s : String) : Bool :=
  let l := stripChars s.data
  let l := match l with
    | '+' :: t => t
    | '-' :: t => t
    | t => t
  match splitOnCharAux '.' [] l with
  | [a] => !a.isEmpty && a.all Char.isDigit
  | [a, b] => (!a.isEmpty || !b.isEmpty) && a.all Char.isDigit && b.all Char.isDigit
  | _ => false

/-- `pd.to_numeric(cell, errors='coerce').notna()`: numbers always
parse, text parses when it is a numeric literal, null never does. -/
def cellParsesNumeric : Cell → Bool
  | none => false
  | some (.num _) => true
  | some (.str s) => isNumericStr s

/-- Number of non-null cells of `field` that fail numeric parsing
(the mask `~to_numeric(...).notna() & df[field].notna()`). -/
def nonNumericCount (df : Table) (field : String) : Nat :=
  ((df.colCells field).filter
    (fun c => c.isSome && !cellParsesNumeric c)).length

/-- The `type_errors` list: one message per present numeric field with
at least one bad cell.  These land only in the check's own result dict,
never in `self.errors`. -/
def dataTypeErrors (df : Table) : List String :=
  numericFields.filterMap (fun field =>
    if df.hasCol field then
      if nonNumericCount df field > 0 then
        some (field ++ ": " ++ toString (nonNumericCount df field) ++
          " non-numeric values")
      else none
    else none)

/-- Status recorded under `validation_results["data_types"]`. -/
def dataTypesStatus (df : Table) : String :=
  if dataTypeErrors df = [] then "PASS" else "FAIL"

/-- `df[field].astype(str).str.contains(r'^https?://', case=False)`. -/
def urlStartsOk (v : CellVal) : Bool :=
  pyStartsWith (pyLower (textify v)) "http://" ||
    pyStartsWith (pyLower (textify v)) "https://"

/-- Count of non-null `field` cells whose text lacks an URL scheme. -/
def invalidUrlCount (df : Table) (field : String) : Nat :=
  ((df.colCells field).filter (fun c =>
    match c with
    | some v => !urlStartsOk v
    | none => false)).length

/-- Warnings of the URL loop. -/
def urlWarnings (df : Table) : List String :=
  urlFields.filterMap (fun field =>
    if df.hasCol field then
      if invalidUrlCount df field > 0 then
        some (field ++ ": " ++ toString (invalidUrlCount df field) ++
          " entries missing http:// or https://")
      else none
    else none)

/-- Count of non-null `field` cells whose text lacks an `@`. -/
def invalidEmailCount (df : Table) (field : String) : Nat :=
  ((df.colCells field).filter (fun c =>
    match c with
    | some v => !(textify v).data.contains '@'
    | none => false)).length

/-- Warnings of the email loop. -/
def emailWarnings (df : Table) : List String :=
  emailFields.filterMap (fun field =>
    if df.hasCol field then
      if invalidEmailCount df field > 0 then
        some (field ++ ": " ++ toString (invalidEmailCount df field) ++
          " entries missing \x27@\x27 symbol")
      else none
    else none)

/-- All warnings appended by `_check_data_types`, in source order
(URL loop, then email loop). -/
def dataTypeWarnings (df : Table) : List String :=
  urlWarnings df ++ emailWarnings df

/-! ## Completeness (`SubmissionValidator._check_completeness`) -/

/-- `df[field].notna().sum()`. -/
def fieldFilled (df : Table) (field : String) : Nat :=
  ((df.colCells field).filter Option.isSome).length

/-- Per-field completeness `filled / total if total > 0 else 0`. -/
def fieldCompleteness (df : Table) (field : String) : ℚ :=
  if df.rows.length > 0 then
    (fieldFilled df field : ℚ) / (df.rows.length : ℚ)
  else 0

/-- `total_filled`: the sum of `filled` over the present required
fields. -/
def totalFilled (s : Schema) (df : Table) : Nat :=
  ((presentRequired s df).map (fieldFilled df)).sum

/-- `total_cells`: every present required field contributes `len(df)`. -/
def totalCells (s : Schema) (df : Table) : Nat :=
  (presentRequired s df).length * df.rows.length

/-- `overall_completeness = total_filled / total_cells if total_cells > 0 else 0`. -/
def overallCompleteness (s : Schema) (df : Table) : ℚ :=
  if totalCells s df > 0 then
    (totalFilled s df : ℚ) / (totalCells s df : ℚ)
  else 0

/-- Round-half-even to an integer, as Python's float formatting and
`round` do on exactly representable halves. -/
def roundHalfEvenQ (q : ℚ) : ℤ :=
  if q - ⌊q⌋ < 1 / 2 then ⌊q⌋
  else if q - ⌊q⌋ > 1 / 2 then ⌊q⌋ + 1
  else if ⌊q⌋ % 2 = 0 then ⌊q⌋ else ⌊q⌋ + 1

/-- Python `f"{q:.1%}"` for a non-negative ratio. -/
def fmtPct1 (q : ℚ) : String :=
  let t := roundHalfEvenQ (q * 1000)
  toString (t / 10) ++ "." ++ toString (t % 10) ++ "%"

/-- Python `f"{q:.0%}"` for a non-negative ratio. -/
def fmtPct0 (q : ℚ) : String :=
  toString (roundHalfEvenQ (q * 100)) ++ "%"

/-- `round(q, 3)` (stored in the per-field stats and the overall
figure of the result dict). -/
def roundTo3 (q : ℚ) : ℚ :=
  (roundHalfEvenQ (q * 1000) : ℚ) / 1000

/-- Errors appended by `_check_completeness`: only the hard
no-required-fields error, after which the method returns early. -/
def completenessErrors (s : Schema) (df : Table) : List String :=
  if presentRequired s df = [] then ["No required fields found in submission"]
  else []

/-- Warnings appended by `_check_completeness`. -/
def completenessWarnings (s : Schema) (df : Table) : List String :=
  if presentRequired s df = [] then []
  else if overallCompleteness s df < COMPLETENESS_TARGET then
    ["Completeness " ++ fmtPct1 (overallCompleteness s df) ++
      " below target " ++ fmtPct0 COMPLETENESS_TARGET]
  else []

/-- Required fields whose rounded completeness falls below `0.8`
(recorded as `low_completeness_fields`). -/
def lowCompletenessFields (s : Schema) (df : Table) : List String :=
  (presentRequired s df).filter
    (fun f => roundTo3 (fieldCompleteness df f) < 4 / 5)

/-- Status recorded under `validation_results["completeness"]` (when
the entry is recorded at all). -/
def completenessStatus (s : Schema) (df : Table) : String :=
  if COMPLETENESS_TARGET ≤ overallCompleteness s df then "PASS" else "WARNING"

/-! ## Dropdown conformance (`SubmissionValidator._check_dropdown_values`) -/

/-- First-seen deduplication.  The source materialises a Python `set`
here; its iteration order is unspecified but fixed within a process,
and no message content verified below depends on the order chosen, so
the model fixes first-seen order. -/
def firstSeenAux (seen : List String) : List String → List String
  | [] => []
  | a :: t =>
    if seen.contains a then firstSeenAux seen t
    else a :: firstSeenAux (a :: seen) t

/-- `set(df[field].dropna().astype(str).unique())`: the distinct
textified non-null values of the column. -/
def observedValues (df : Table) (field : String) : List String :=
  firstSeenAux [] ((df.colCells field).filterMap (fun c => c.map textify))

/-- `actual_values - allowed_set` for one dropdown field. -/
def invalidFor (df : Table) (field : String) (allowed : List String) : List String :=
  (observedValues df field).filter (fun v => !allowed.contains v)

/-- The `invalid_values` mapping: one entry per present dropdown field
with a non-empty invalid set, in schema declaration order. -/
def dropdownInvalid (s : Schema) (df : Table) : List (String × List String) :=
  s.dropdowns.filterMap (fun p =>
    if df.hasCol p.1 then
      if invalidFor df p.1 p.2 = [] then none
      else some (p.1, invalidFor df p.1 p.2)
    else none)

/-- Error messages appended by the dropdown check, one per offending
field. -/
def dropdownErrors (s : Schema) (df : Table) : List String :=
  (dropdownInvalid s df).map (fun p =>
    p.1 ++ ": Invalid values found: " ++ ", ".intercalate p.2)

/-- Status recorded under `validation_results["dropdown_validation"]`. -/
def dropdownStatus (s : Schema) (df : Table) : String :=
  if dropdownInvalid s df = [] then "PASS" else "FAIL"

/-! ## Quality metrics (`SubmissionValidator._check_quality_metrics`) -/

/-- Columns whose name ends in `_ID`, in column order. -/
def idFields (df : Table) : List String :=
  df.columns.filter (fun c => pyEndsWith c "_ID")

/-- `Series.duplicated().sum()`: elements equal to an earlier element,
counted with multiplicity. -/
def dupCountAux (seen : List CellVal) : List CellVal → Nat
  | [] => 0
  | v :: t =>
    (if seen.contains v then 1 else 0) + dupCountAux (v :: seen) t

/-- Duplicate count of the first `_ID` column, over its non-null raw
values; `0` when there is no `_ID` column. -/
def primaryDupCount (df : Table) : Nat :=
  match (idFields df).head? with
  | none => 0
  | some primary => dupCountAux [] ((df.colCells primary).filterMap id)

/-- Warnings appended by the quality-metrics check. -/
def qualityWarnings (df : Table) : List String :=
  match (idFields df).head? with
  | none => []
  | some primary =>
    if primaryDupCount df > 0 then
      ["Found " ++ toString (primaryDupCount df) ++ " duplicate " ++
        primary ++ " values"]
    else []

/-- `metrics["non_empty_rows"]`: rows with at least one non-null cell. -/
def nonEmptyRows (df : Table) : Nat :=
  (df.rows.filter (fun r => r.any Option.isSome)).length

/-- `metrics["fields_used"]`: columns with at least one non-null value. -/
def fieldsUsed (df : Table) : Nat :=
  (df.columns.filter (fun c => (df.colCells c).any Option.isSome)).length

/-! ## Enhancement targets (`SubmissionValidator._check_enhancement_targets`) -/

/-- The designated marker column for enhanced CORDIS organizations. -/
def cordisMarker : String := "CORDIS_Organization_ID"

/-- Rows counted as enhanced: marker cell non-null; the empty frame
when the marker column is absent. -/
def enhancedRowsOf (df : Table) : List Row :=
  if df.hasCol cordisMarker then
    df.rows.filter (fun r => (df.cellAt cordisMarker r).isSome)
  else []

/-- Rows counted as new: marker cell null, or every row when the marker
column is absent. -/
def newRowsOf (df : Table) : List Row :=
  if df.hasCol cordisMarker then
    df.rows.filter (fun r => !(df.cellAt cordisMarker r).isSome)
  else df.rows

/-- `targets.get("min_enhanced_orgs", 30)` etc. -/
def tgtEnhanced (s : Schema) : Nat :=
  ((s.enhancementTargets.map EnhancementTargets.minEnhancedOrgs).getD 30)

def tgtNew (s : Schema) : Nat :=
  ((s.enhancementTargets.map EnhancementTargets.minNewOrgs).getD 10)

def tgtFields (s : Schema) : Nat :=
  ((s.enhancementTargets.map EnhancementTargets.minFieldsPerOrg).getD 3)

/-- Optional fields present in the table (`enhancement_fields`). -/
def enhancementFields (s : Schema) (df : Table) : List String :=
  s.optionalFields.filter (fun f => df.hasCol f)

/-- Non-null optional-field cells of one row
(`enhanced_orgs[enhancement_fields].notna().sum(axis=1)` per row). -/
def rowOptionalFilled (s : Schema) (df : Table) (r : Row) : Nat :=
  ((enhancementFields s df).filter
    (fun f => (df.cellAt f r).isSome)).length

/-- `fields_per_org.mean()` over the enhanced rows. -/
def avgEnhancementDepth (s : Schema) (df : Table) : ℚ :=
  (((enhancedRowsOf df).map (rowOptionalFilled s df)).sum : ℚ) /
    ((enhancedRowsOf df).length : ℚ)

/-- Python `f"{q:.1f}"` for a non-negative value. -/
def fmtFixed1 (q : ℚ) : String :=
  let t := roundHalfEvenQ (q * 10)
  toString (t / 10) ++ "." ++ toString (t % 10)

/-- Warnings appended by `_check_enhancement_targets`, in source order:
enhanced-count shortfall, new-count shortfall, enhancement-depth
shortfall. -/
def enhancementTargetWarnings (s : Schema) (df : Table) : List String :=
  (if (enhancedRowsOf df).length < tgtEnhanced s then
    ["Enhanced organizations (" ++ toString (enhancedRowsOf df).length ++
      ") below minimum (" ++ toString (tgtEnhanced s) ++ ")"]
  else []) ++
  (if (newRowsOf df).length < tgtNew s then
    ["New organizations (" ++ toString (newRowsOf df).length ++
      ") below minimum (" ++ toString (tgtNew s) ++ ")"]
  else []) ++
  (if (enhancedRowsOf df) ≠ [] ∧ enhancementFields s df ≠ [] ∧
      avgEnhancementDepth s df < (tgtFields s : ℚ) then
    ["Average enhancement depth (" ++ fmtFixed1 (avgEnhancementDepth s df) ++
      " fields) below minimum (" ++ toString (tgtFields s) ++ " fields)"]
  else [])

/-- Status recorded under `validation_results["enhancement_targets"]`:
the depth shortfall deliberately does not feed into it. -/
def enhancementStatus (s : Schema) (df : Table) : String :=
  if tgtEnhanced s ≤ (enhancedRowsOf df).length ∧
      tgtNew s ≤ (newRowsOf df).length then "PASS"
  else "WARNING"

/-- The gate in `validate`: the enhancement check runs only for the
two-tab Organization Registry template. -/
def enhancementGate (templateType : String) (s : Schema) : Bool :=
  templateType = "1_Organization_Registry" && s.twoTab

/-- Warnings the enhancement check contributes to a run. -/
def enhancementWarnings (templateType : String) (s : Schema) (df : Table) : List String :=
  if enhancementGate templateType s then enhancementTargetWarnings s df else []

/-! ## Report builder (`SubmissionValidator._generate_report`) -/

/-- One entry of `validation_results`, reduced to the part the report
summary reads: its key and the `status` value it exposes (the
quality-metrics dict exposes none). -/
structure CheckEntry where
  name : String
  status : Option String
deriving DecidableEq, Repr

/-- The summary block of the report. -/
structure Summary where
  totalErrors : Nat
  totalWarnings : Nat
  checksPassed : Nat
  checksFailed : Nat
  checksWarning : Nat
deriving DecidableEq, Repr

/-- The validation report (metadata timestamp omitted; the idempotence
claim excludes it). -/
structure Report where
  status : String
  errors : List String
  warnings : List String
  results : List CheckEntry
  summary : Summary
deriving DecidableEq, Repr

/-- `sum(1 for v in ... if v.get("status") == s)`. -/
def countStatus (results : List CheckEntry) (s : String) : Nat :=
  (results.filter (fun e => e.status = some s)).length

/-- `_generate_report`: the strict error/warning/clean priority, plus
the summary counters. -/
def generateReport (errors warnings : List String) (results : List CheckEntry) : Report :=
  { status :=
      if errors = [] then
        if warnings = [] then "VALIDATED" else "VALIDATED_WITH_WARNINGS"
      else "REJECTED"
    errors := errors
    warnings := warnings
    results := results
    summary :=
      { totalErrors := errors.length
        totalWarnings := warnings.length
        checksPassed := countStatus results "PASS"
        checksFailed := countStatus results "FAIL"
        checksWarning := countStatus results "WARNING" } }

/-! ## The check pipeline (`SubmissionValidator.validate`, post-extraction) -/

/-- `validation_results["schema_compliance"]` as a summary entry. -/
def schemaComplianceEntry (s : Schema) (df : Table) : CheckEntry :=
  ⟨"schema_compliance", some (schemaComplianceStatus s df)⟩

/-- `validation_results["data_types"]` as a summary entry. -/
def dataTypesEntry (df : Table) : CheckEntry :=
  ⟨"data_types", some (dataTypesStatus df)⟩

/-- The completeness entry; absent when the check returned early on the
no-required-fields hard error. -/
def completenessEntryList (s : Schema) (df : Table) : List CheckEntry :=
  if presentRequired s df = [] then []
  else [⟨"completeness", some (completenessStatus s df)⟩]

/-- `validation_results["dropdown_validation"]` as a summary entry. -/
def dropdownEntry (s : Schema) (df : Table) : CheckEntry :=
  ⟨"dropdown_validation", some (dropdownStatus s df)⟩

/-- `validation_results["quality_metrics"]`: no `status` key. -/
def qualityEntry : CheckEntry :=
  ⟨"quality_metrics", none⟩

/-- The enhancement entry, present only behind the template gate. -/
def enhancementEntryList (templateType : String) (s : Schema) (df : Table) : List CheckEntry :=
  if enhancementGate templateType s then
    [⟨"enhancement_targets", some (enhancementStatus s df)⟩]
  else []

/-- The five checks (plus the gated enhancement check) run in source
order over an extracted table, every accumulator appended in the order
the Python methods append, then the report is generated. -/
def validateTable (templateType : String) (s : Schema) (df : Table) : Report :=
  generateReport
    (schemaComplianceErrors s df ++ completenessErrors s df ++ dropdownErrors s df)
    (dataTypeWarnings df ++ completenessWarnings s df ++ qualityWarnings df ++
      enhancementWarnings templateType s df)
    ([schemaComplianceEntry s df, dataTypesEntry df] ++
      completenessEntryList s df ++
      [dropdownEntry s df, qualityEntry] ++
      enhancementEntryList templateType s df)

/-! ## Entry points (`validate`, `validate_file`, `validate_batch`) -/

/-- A single input file as the engine observes it: either
`load_workbook` raises (corrupt / unreadable file) with the given
message, or it yields named worksheets. -/
inductive FileInput where
  | loadFailure (msg : String)
  | workbook (sheets : List (String × Grid))
deriving Repr

/-- `sheet_name in wb.sheetnames` / `wb[sheet_name]`. -/
def sheetLookup (sheets : List (String × Grid)) (name : String) : Option Grid :=
  (sheets.find? (fun p => p.1 = name)).map (fun p => p.2)

/-- `SubmissionValidator.validate` after the template has been
identified: every hard failure is recorded in the error list of a
well-formed report. -/
def runValidate (templateType : String) (s : Schema) (input : FileInput) : Report :=
  match input with
  | .loadFailure msg =>
    generateReport ["Failed to load file: " ++ msg] [] []
  | .workbook sheets =>
    match sheetLookup sheets s.sheetName with
    | none =>
      generateReport
        ["Expected worksheet \x27" ++ s.sheetName ++ "\x27 not found"] [] []
    | some grid =>
      match worksheetToDataframe grid with
      | .error e =>
        generateReport ["Failed to parse worksheet: " ++ e] [] []
      | .ok df => validateTable templateType s df

/-- `validate_file` (report persistence omitted): template
identification happens in the constructor, so an unknown template
escapes as an exception (`Except.error`) instead of being recorded. -/
def validateFile (filename : String) (input : FileInput) : Except String Report :=
  match identifyTemplate filename with
  | .error e => .error e
  | .ok p => .ok (runValidate p.1 p.2 input)

/-- One discovered file of a batch directory. -/
structure BatchFile where
  name : String
  input : FileInput

/-- One entry of a batch result: a full per-file report, or the
`{"status": "ERROR", "errors": [...]}` entry built in the batch
`except` block. -/
inductive BatchReport where
  | full (name : String) (r : Report)
  | errorEntry (name : String) (errors : List String)

/-- The status string of a batch entry. -/
def BatchReport.status : BatchReport → String
  | .full _ r => r.status
  | .errorEntry _ _ => "ERROR"

/-- `validate_batch` (globbing and report persistence omitted: the
directory is modelled as the ordered list of discovered files).  The
per-file `try`/`except` is the `Except` match: an exception escaping
`validate_file` becomes an `ERROR` entry and the loop continues. -/
def validateBatch (files : List BatchFile) : List BatchReport :=
  files.map (fun f =>
    match validateFile f.name f.input with
    | .ok r => .full f.name r
    | .error e => .errorEntry f.name [e])

/-! ## Concrete fixtures used by the witnesses and counterexamples -/

/-- A Focus-Group table whose four required fields are fully filled but
whose `Employees` column holds the non-numeric text `abc`. -/
def dfFocusTypeBad : Table :=
  { columns := ["Session_Date", "Location", "Facilitator",
      "Number_of_Participants", "Employees"]
    rows := [[some (.str "2024-01-15"), some (.str "Lisbon"), some (.str "Ana"),
      some (.str "12"), some (.str "abc")]] }

/-- A one-column table whose `Employees` cell is non-numeric. -/
def dfEmployeesBad : Table :=
  { columns := ["Employees"], rows := [[some (.str "n/a")]] }

/-- A grid consisting of exactly one header row and no data rows. -/
def gridHeaderOnly : Grid :=
  [[some (.str "Organization_ID"), some (.str "Organization_Name")]]

/-- A Stakeholder-Mapping table missing the `Influence` column. -/
def dfStakeNoInfluence : Table :=
  { columns := ["Stakeholder_ID", "Name", "Organization", "Role", "Interest"]
    rows := [[some (.str "S1"), some (.str "Jo"), some (.str "Org"),
      some (.str "Researcher"), some (.str "High")]] }

/-- A Stakeholder-Mapping table with all required columns and zero rows. -/
def dfStakeZeroRows : Table :=
  { columns := ["Stakeholder_ID", "Name", "Organization", "Role",
      "Influence", "Interest"]
    rows := [] }

/-- A Stakeholder-Mapping table with one fully filled row. -/
def dfStakeFull : Table :=
  { columns := ["Stakeholder_ID", "Name", "Organization", "Role",
      "Influence", "Interest"]
    rows := [[some (.str "S1"), some (.str "Jo"), some (.str "Org"),
      some (.str "Researcher"), some (.str "High"), some (.str "Medium")]] }

/-- A well-formed Stakeholder-Mapping worksheet grid. -/
def stakeGridOk : Grid :=
  [[some (.str "Stakeholder_ID"), some (.str "Name"), some (.str "Organization"),
    some (.str "Role"), some (.str "Influence"), some (.str "Interest")],
   [some (.str "S1"), some (.str "Ana Silva"), some (.str "UPorto"),
    some (.str "Researcher"), some (.str "High"), some (.str "High")]]

/-- A batch directory: three loadable stakeholder files plus one
corrupt file whose name matches the `1` template prefix. -/
def batchDir : List BatchFile :=
  [⟨"2_Stakeholder_Mapping_PT16.xlsx", .workbook [("Stakeholder Mapping", stakeGridOk)]⟩,
   ⟨"2_Stakeholder_Mapping_EL54.xlsx", .workbook [("Stakeholder Mapping", stakeGridOk)]⟩,
   ⟨"2_Stakeholder_Mapping_LT01.xlsx", .workbook [("Stakeholder Mapping", stakeGridOk)]⟩,
   ⟨"1_Organization_Registry_PT16.xlsx", .loadFailure "File is not a zip file"⟩]

/-- A batch directory with one unknown-template file and one corrupt
template-matched file. -/
def batchDirW : List BatchFile :=
  [⟨"Notes.xlsx", .workbook []⟩,
   ⟨"3_Value_Chain_Mapping_X.xlsx", .loadFailure "corrupt"⟩]

/-- A table containing none of the Stakeholder-Mapping required fields. -/
def dfNoReqCols : Table :=
  { columns := ["Foo"], rows := [[some (.str "x")]] }

/-- A table containing only the optional `Notes` column of the
Policy-Analysis template. -/
def dfOnlyNotes : Table :=
  { columns := ["Notes"], rows := [] }

/-- A one-column table whose dropdown cell holds the empty string. -/
def dfInfluenceEmpty : Table :=
  { columns := ["Influence"], rows := [[some (.str "")]] }

/-! ## Helper lemmas -/

theorem generateReport_errors (e w : List String) (rs : List CheckEntry) :
    (generateReport e w rs).errors = e := rfl

theorem generateReport_warnings (e w : List String) (rs : List CheckEntry) :
    (generateReport e w rs).warnings = w := rfl

theorem generateReport_results (e w : List String) (rs : List CheckEntry) :
    (generateReport e w rs).results = rs := rfl

theorem generateReport_rejected {e : List String} (w : List String)
    (rs : List CheckEntry) (h : e ≠ []) :
    (generateReport e w rs).status = "REJECTED" := by
  simp [generateReport, h]

theorem generateReport_validated {e w : List String} (rs : List CheckEntry)
    (he : e = []) (hw : w = []) :
    (generateReport e w rs).status = "VALIDATED" := by
  simp [generateReport, he, hw]

theorem generateReport_status_ne_error (e w : List String) (rs : List CheckEntry) :
    (generateReport e w rs).status ≠ "ERROR" := by
  unfold generateReport
  dsimp only
  split
  · split <;> decide
  · decide

/-- `validateTable` unrolled to its report constituents. -/
theorem validateTable_def (t : String) (s : Schema) (df : Table) :
    validateTable t s df = generateReport
      (schemaComplianceErrors s df ++ completenessErrors s df ++ dropdownErrors s df)
      (dataTypeWarnings df ++ completenessWarnings s df ++ qualityWarnings df ++
        enhancementWarnings t s df)
      ([schemaComplianceEntry s df, dataTypesEntry df] ++
        completenessEntryList s df ++
        [dropdownEntry s df, qualityEntry] ++
        enhancementEntryList t s df) := rfl

theorem validateTable_rejected_of_mem {t : String} {s : Schema} {df : Table}
    {m : String} (h : m ∈ (validateTable t s df).errors) :
    (validateTable t s df).status = "REJECTED" := by
  rw [validateTable_def] at h ⊢
  exact generateReport_rejected _ _ (List.ne_nil_of_mem h)

theorem runValidate_status_ne_error (t : String) (s : Schema) (input : FileInput) :
    (runValidate t s input).status ≠ "ERROR" := by
  cases input with
  | loadFailure msg => exact generateReport_status_ne_error _ _ _
  | workbook sheets =>
    cases hsl : sheetLookup sheets s.sheetName with
    | none =>
      simp only [runValidate, hsl]
      exact generateReport_status_ne_error _ _ _
    | some grid =>
      cases hw : worksheetToDataframe grid with
      | error e =>
        simp only [runValidate, hsl, hw]
        exact generateReport_status_ne_error _ _ _
      | ok df =>
        simp only [runValidate, hsl, hw, validateTable_def]
        exact generateReport_status_ne_error _ _ _

theorem validateFile_of_identify {filename : String} {p : String × Schema}
    (h : identifyTemplate filename = .ok p) (input : FileInput) :
    validateFile filename input = .ok (runValidate p.1 p.2 input) := by
  unfold validateFile
  rw [h]

theorem validateFile_ok_inv {filename : String} {input : FileInput} {r : Report}
    (h : validateFile filename input = .ok r) :
    ∃ p, identifyTemplate filename = .ok p ∧ r = runValidate p.1 p.2 input := by
  unfold validateFile at h
  cases hid : identifyTemplate filename with
  | error e =>
    rw [hid] at h
    exact absurd h (by simp)
  | ok p =>
    rw [hid] at h
    injection h with h2
    exact ⟨p, rfl, h2.symm⟩

/-! ## Claim C3 -/

/-- Claim C3: for every validation run, the report's overall status is
derived in strict priority order from the report's own accumulators —
non-empty error list gives REJECTED; else a non-empty warning list
gives VALIDATED_WITH_WARNINGS; else VALIDATED. -/
theorem overall_status_priority (t : String) (s : Schema) (input : FileInput) :
    (runValidate t s input).status =
      (if (runValidate t s input).errors = [] then
        (if (runValidate t s input).warnings = [] then "VALIDATED"
         else "VALIDATED_WITH_WARNINGS")
       else "REJECTED") := by
  have h : ∀ e w rs, (generateReport e w rs).status =
      (if (generateReport e w rs).errors = [] then
        (if (generateReport e w rs).warnings = [] then "VALIDATED"
         else "VALIDATED_WITH_WARNINGS")
       else "REJECTED") := fun e w rs => rfl
  cases input with
  | loadFailure msg => exact h _ _ _
  | workbook sheets =>
    cases hsl : sheetLookup sheets s.sheetName with
    | none =>
      simp only [runValidate, hsl]
      exact h _ _ _
    | some grid =>
      cases hw : worksheetToDataframe grid with
      | error e =>
        simp only [runValidate, hsl, hw]
        exact h _ _ _
      | ok df =>
        simp only [runValidate, hsl, hw, validateTable_def]
        exact h _ _ _

/-! ## Claim C1 -/

/-- Counterexample to claim C1: a file whose name matches no registered
template prefix makes the single-file entry point raise (`Except.error`,
the `ValueError` of the constructor) instead of recording the failure
in a returned report. -/
theorem unknown_template_escapes_entry_point :
    validateFile "Partner_Data.xlsx" (FileInput.workbook []) =
      Except.error "Unknown template type: Partner_Data.xlsx" := rfl

/-- Claim C1 (amended): for a file whose name matches a registered
template prefix, the single-file entry point always returns a report;
the workbook-unreadable, expected-sheet-missing, worksheet-unparsable
and zero-required-fields hard errors are each recorded in the report's
error list and force overall status REJECTED.  A file name matching no
registered template prefix instead raises past the entry point. -/
theorem hard_errors_recorded (filename : String) (p : String × Schema)
    (input : FileInput) (hid : identifyTemplate filename = .ok p) :
    validateFile filename input = .ok (runValidate p.1 p.2 input) ∧
    (∀ msg, input = .loadFailure msg →
      (runValidate p.1 p.2 input).errors = ["Failed to load file: " ++ msg] ∧
      (runValidate p.1 p.2 input).status = "REJECTED") ∧
    (∀ sheets, input = .workbook sheets →
      sheetLookup sheets p.2.sheetName = none →
      (runValidate p.1 p.2 input).errors =
        ["Expected worksheet \x27" ++ p.2.sheetName ++ "\x27 not found"] ∧
      (runValidate p.1 p.2 input).status = "REJECTED") ∧
    (∀ sheets grid e, input = .workbook sheets →
      sheetLookup sheets p.2.sheetName = some grid →
      worksheetToDataframe grid = .error e →
      (runValidate p.1 p.2 input).errors = ["Failed to parse worksheet: " ++ e] ∧
      (runValidate p.1 p.2 input).status = "REJECTED") ∧
    (∀ sheets grid df, input = .workbook sheets →
      sheetLookup sheets p.2.sheetName = some grid →
      worksheetToDataframe grid = .ok df →
      presentRequired p.2 df = [] →
      "No required fields found in submission" ∈ (runValidate p.1 p.2 input).errors ∧
      (runValidate p.1 p.2 input).status = "REJECTED") := by
  refine ⟨validateFile_of_identify hid input, ?_, ?_, ?_, ?_⟩
  · rintro msg rfl
    exact ⟨rfl, generateReport_rejected _ _ (by simp)⟩
  · rintro sheets rfl hnone
    simp only [runValidate, hnone]
    exact ⟨rfl, generateReport_rejected _ _ (by simp)⟩
  · rintro sheets grid e rfl hsl hw
    simp only [runValidate, hsl, hw]
    exact ⟨rfl, generateReport_rejected _ _ (by simp)⟩
  · rintro sheets grid df rfl hsl hw hp
    simp only [runValidate, hsl, hw]
    have hmem : "No required fields found in submission" ∈
        (validateTable p.1 p.2 df).errors := by
      rw [validateTable_def, generateReport_errors, completenessErrors, if_pos hp]
      simp
    exact ⟨hmem, validateTable_rejected_of_mem hmem⟩

/-- Witness for claim C1 (amended): a concrete corrupt file whose name
matches the Stakeholder-Mapping prefix is returned as a REJECTED
report, not raised. -/
theorem hard_errors_recorded_witness :
    validateFile "2_Stakeholder_Mapping_PT16_corrupt.xlsx"
        (FileInput.loadFailure "File is not a zip file") =
      .ok (runValidate "2_Stakeholder_Mapping" stakeholderMappingSchema
        (FileInput.loadFailure "File is not a zip file")) ∧
    (runValidate "2_Stakeholder_Mapping" stakeholderMappingSchema
      (FileInput.loadFailure "File is not a zip file")).status = "REJECTED" := by
  have h := hard_errors_recorded "2_Stakeholder_Mapping_PT16_corrupt.xlsx"
    ("2_Stakeholder_Mapping", stakeholderMappingSchema)
    (FileInput.loadFailure "File is not a zip file") rfl
  exact ⟨h.1, (h.2.1 "File is not a zip file" rfl).2⟩

/-! ## Claim C9 -/

/-- Claim C9: validation is deterministic — validating the same file
twice with no mutation in between yields identical ordered error
lists, identical ordered warning lists (dropdown invalid-value
orderings included) and identical summary counters; the report
timestamp is outside the model, as the claim excludes it. -/
theorem validate_idempotent (filename : String) (input : FileInput) (r1 r2 : Report)
    (h1 : validateFile filename input = Except.ok r1)
    (h2 : validateFile filename input = Except.ok r2) :
    r1.errors = r2.errors ∧ r1.warnings = r2.warnings ∧ r1.summary = r2.summary := by
  rw [h1] at h2
  injection h2 with h
  rw [h]
  exact ⟨rfl, rfl, rfl⟩

/-- Witness for claim C9: two validations of one concrete file. -/
theorem validate_idempotent_witness :
    (runValidate "2_Stakeholder_Mapping" stakeholderMappingSchema
        (FileInput.loadFailure "x")).errors =
      (runValidate "2_Stakeholder_Mapping" stakeholderMappingSchema
        (FileInput.loadFailure "x")).errors ∧
    (runValidate "2_Stakeholder_Mapping" stakeholderMappingSchema
        (FileInput.loadFailure "x")).warnings =
      (runValidate "2_Stakeholder_Mapping" stakeholderMappingSchema
        (FileInput.loadFailure "x")).warnings ∧
    (runValidate "2_Stakeholder_Mapping" stakeholderMappingSchema
        (FileInput.loadFailure "x")).summary =
      (runValidate "2_Stakeholder_Mapping" stakeholderMappingSchema
        (FileInput.loadFailure "x")).summary :=
  validate_idempotent "2_Stakeholder_Mapping_PT16.xlsx" (FileInput.loadFailure "x")
    _ _ rfl rfl

/-! ## Claim C2 -/

/-- Counterexample to claim C2: a table whose `Employees` column holds
the non-numeric text `abc` makes the data-type check FAIL, yet the
overall report status is VALIDATED, not REJECTED — the type errors are
recorded only inside the check result, never in the error list. -/
theorem data_type_fail_without_rejection :
    dataTypesStatus dfFocusTypeBad = "FAIL" ∧
    (validateTable "5_Focus_Group_Notes" focusGroupNotesSchema dfFocusTypeBad).status =
      "VALIDATED" := by
  constructor
  · decide
  · have hof : overallCompleteness focusGroupNotesSchema dfFocusTypeBad = 1 := by
      have h4 : totalFilled focusGroupNotesSchema dfFocusTypeBad = 4 := by decide
      have h4c : totalCells focusGroupNotesSchema dfFocusTypeBad = 4 := by decide
      rw [overallCompleteness, h4, h4c]
      norm_num
    have hcw : completenessWarnings focusGroupNotesSchema dfFocusTypeBad = [] := by
      have hlt : ¬ overallCompleteness focusGroupNotesSchema dfFocusTypeBad <
          COMPLETENESS_TARGET := by
        rw [hof, COMPLETENESS_TARGET]
        norm_num
      rw [completenessWarnings,
        if_neg (by decide :
          ¬ presentRequired focusGroupNotesSchema dfFocusTypeBad = []),
        if_neg hlt]
    have hw : dataTypeWarnings dfFocusTypeBad ++
        completenessWarnings focusGroupNotesSchema dfFocusTypeBad ++
        qualityWarnings dfFocusTypeBad ++
        enhancementWarnings "5_Focus_Group_Notes" focusGroupNotesSchema dfFocusTypeBad
          = [] := by
      rw [hcw]
      decide
    rw [validateTable_def]
    exact generateReport_validated _ (by decide) hw

/-- Claim C2 (amended): a present numeric-semantic field with at least
one non-null cell failing numeric parsing makes the data-type check's
status FAIL, but the violations are recorded only inside the check
result, never in the report's error list — the error list holds
exactly the schema-compliance, completeness and dropdown
contributions, so the type violations do not by themselves force
REJECTED. -/
theorem numeric_violation_fails_check_only (df : Table) (field : String)
    (hf : field ∈ numericFields) (hcol : df.hasCol field = true)
    (hbad : 0 < nonNumericCount df field) :
    dataTypesStatus df = "FAIL" ∧
    ∀ (t : String) (s : Schema),
      (validateTable t s df).errors =
        schemaComplianceErrors s df ++ completenessErrors s df ++
          dropdownErrors s df := by
  constructor
  · have hmem : (field ++ ": " ++ toString (nonNumericCount df field) ++
        " non-numeric values") ∈ dataTypeErrors df := by
      apply List.mem_filterMap.mpr
      refine ⟨field, hf, ?_⟩
      rw [if_pos hcol, if_pos hbad]
    rw [dataTypesStatus, if_neg (List.ne_nil_of_mem hmem)]
  · intro t s
    rw [validateTable_def, generateReport_errors]

/-- Witness for claim C2 (amended), at a concrete one-cell table. -/
theorem numeric_violation_fails_check_only_witness :
    dataTypesStatus dfEmployeesBad = "FAIL" ∧
    (validateTable "2_Stakeholder_Mapping" stakeholderMappingSchema dfEmployeesBad).errors =
      schemaComplianceErrors stakeholderMappingSchema dfEmployeesBad ++
        completenessErrors stakeholderMappingSchema dfEmployeesBad ++
        dropdownErrors stakeholderMappingSchema dfEmployeesBad := by
  have h := numeric_violation_fails_check_only dfEmployeesBad "Employees"
    (by decide) (by decide) (by decide)
  exact ⟨h.1, h.2 "2_Stakeholder_Mapping" stakeholderMappingSchema⟩

/-! ## Claim C4 -/

/-- Counterexample to claim C4: a grid whose detected header row names
two columns but that has zero data rows extracts to a table with zero
columns — the extracted column names are NOT preserved (they are cut
off by the `headers[:0]` truncation). -/
theorem empty_submission_loses_columns :
    headerInfo gridHeaderOnly = (1, ["Organization_ID", "Organization_Name"]) ∧
    worksheetToDataframe gridHeaderOnly = Except.ok { columns := [], rows := [] } := by
  exact ⟨by decide, by decide⟩

/-- Claim C4 (amended): whenever zero data rows survive the filtering
of step 5, the extractor returns the table with zero rows AND zero
columns — the extracted header names are discarded, so a
correctly-structured-but-empty submission is reported with every
required field missing. -/
theorem empty_submission_zero_columns (grid : Grid)
    (hdata : (grid.drop (headerInfo grid).1).filter keepDataRow = []) :
    worksheetToDataframe grid = Except.ok { columns := [], rows := [] } := by
  simp [worksheetToDataframe, hdata, cleanColumns]

/-- Witness for claim C4 (amended) at a concrete header-only grid. -/
theorem empty_submission_zero_columns_witness :
    worksheetToDataframe [[some (CellVal.str "Stakeholder_ID"), some (CellVal.str "Name")]] =
      Except.ok { columns := [], rows := [] } :=
  empty_submission_zero_columns _ (by decide)

/-! ## Claim C5 -/

/-- Claim C5: the schema-compliance check's status is FAIL exactly when
some required field is missing from the table's columns; in that case
exactly one error message is emitted, listing every missing field
comma-joined in the schema's declared order, and the run's overall
status is REJECTED; a schema declaring zero required fields always
passes. -/
theorem schema_compliance_spec (t : String) (s : Schema) (df : Table) :
    (schemaComplianceStatus s df = "FAIL" ↔
      ∃ f ∈ s.requiredFields, df.hasCol f = false) ∧
    (s.requiredFields = [] → schemaComplianceStatus s df = "PASS") ∧
    ((∃ f ∈ s.requiredFields, df.hasCol f = false) →
      schemaComplianceErrors s df =
        ["Missing required columns: " ++ ", ".intercalate (missingFields s df)] ∧
      (validateTable t s df).status = "REJECTED") := by
  have hnil : missingFields s df = [] ↔ ∀ f ∈ s.requiredFields, ¬ df.hasCol f = false := by
    rw [missingFields, List.filter_eq_nil_iff]
    constructor
    · intro h f hf
      have := h f hf
      simp at this
      simp [this]
    · intro h f hf
      have := h f hf
      simp at this
      simp [this]
  have hne : missingFields s df ≠ [] ↔ ∃ f ∈ s.requiredFields, df.hasCol f = false := by
    rw [Ne, hnil]
    push_neg
    simp
  refine ⟨?_, ?_, ?_⟩
  · constructor
    · intro h
      by_cases hm : missingFields s df = []
      · rw [schemaComplianceStatus, if_pos hm] at h
        exact absurd h (by decide)
      · exact hne.mp hm
    · intro h
      rw [schemaComplianceStatus, if_neg (hne.mpr h)]
  · intro h
    have : missingFields s df = [] := by
      rw [missingFields, h]
      rfl
    rw [schemaComplianceStatus, if_pos this]
  · intro h
    have hm := hne.mpr h
    have herr : schemaComplianceErrors s df =
        ["Missing required columns: " ++ ", ".intercalate (missingFields s df)] := by
      rw [schemaComplianceErrors, if_neg hm]
    have hmem : ("Missing required columns: " ++
        ", ".intercalate (missingFields s df)) ∈ (validateTable t s df).errors := by
      rw [validateTable_def, generateReport_errors, herr]
      simp
    exact ⟨herr, validateTable_rejected_of_mem hmem⟩

/-- Witness for claim C5: a Stakeholder-Mapping table missing the
`Influence` column yields the single error
`Missing required columns: Influence`, status FAIL, and overall
REJECTED. -/
theorem schema_compliance_spec_witness :
    schemaComplianceStatus stakeholderMappingSchema dfStakeNoInfluence = "FAIL" ∧
    schemaComplianceErrors stakeholderMappingSchema dfStakeNoInfluence =
      ["Missing required columns: Influence"] ∧
    (validateTable "2_Stakeholder_Mapping" stakeholderMappingSchema
      dfStakeNoInfluence).status = "REJECTED" := by
  have h := schema_compliance_spec "2_Stakeholder_Mapping" stakeholderMappingSchema
    dfStakeNoInfluence
  have hex : ∃ f ∈ stakeholderMappingSchema.requiredFields,
      dfStakeNoInfluence.hasCol f = false := ⟨"Influence", by decide, by decide⟩
  have h3 := h.2.2 hex
  refine ⟨h.1.mpr hex, ?_, h3.2⟩
  rw [h3.1]
  decide

/-! ## Claim C6 -/

theorem colCells_length (df : Table) (f : String) :
    (df.colCells f).length = df.rows.length := by
  simp [Table.colCells]

theorem fieldFilled_le (df : Table) (f : String) :
    fieldFilled df f ≤ df.rows.length := by
  calc fieldFilled df f ≤ (df.colCells f).length := List.length_filter_le _ _
  _ = df.rows.length := colCells_length df f

theorem sum_le_length_mul {l : List ℕ} {n : ℕ} (h : ∀ x ∈ l, x ≤ n) :
    l.sum ≤ l.length * n := by
  induction l with
  | nil => simp
  | cons a t ih =>
    simp only [List.sum_cons, List.length_cons]
    have h2 := ih (fun x hx => h x (List.mem_cons_of_mem _ hx))
    have ha := h a (List.mem_cons_self _ _)
    calc a + t.sum ≤ n + t.length * n := Nat.add_le_add ha h2
    _ = (t.length + 1) * n := by ring

theorem sum_eq_length_mul_iff {l : List ℕ} {n : ℕ} (h : ∀ x ∈ l, x ≤ n) :
    l.sum = l.length * n ↔ ∀ x ∈ l, x = n := by
  induction l with
  | nil => simp
  | cons a t ih =>
    have ht := fun x hx => h x (List.mem_cons_of_mem _ hx)
    have ha := h a (List.mem_cons_self _ _)
    have hsum := sum_le_length_mul ht
    simp only [List.sum_cons, List.length_cons, Nat.succ_mul]
    constructor
    · intro he
      have h1 : a = n ∧ t.sum = t.length * n := by omega
      intro x hx
      rcases List.mem_cons.mp hx with rfl | hx2
      · exact h1.1
      · exact ((ih ht).mp h1.2) x hx2
    · intro hall
      rw [hall a (List.mem_cons_self _ _),
        (ih ht).mpr (fun x hx => hall x (List.mem_cons_of_mem _ hx))]
      ring

theorem totalFilled_le (s : Schema) (df : Table) :
    totalFilled s df ≤ totalCells s df := by
  have hb : ∀ x ∈ (presentRequired s df).map (fieldFilled df),
      x ≤ df.rows.length := by
    intro x hx
    rcases List.mem_map.mp hx with ⟨f, _, rfl⟩
    exact fieldFilled_le df f
  have := sum_le_length_mul hb
  rwa [List.length_map] at this

theorem fieldFilled_eq_iff (df : Table) (f : String) :
    fieldFilled df f = df.rows.length ↔
      ∀ r ∈ df.rows, (df.cellAt f r).isSome = true := by
  rw [fieldFilled]
  constructor
  · intro h r hr
    have hsub := List.filter_sublist (l := df.colCells f) (p := Option.isSome)
    have heq : (df.colCells f).filter Option.isSome = df.colCells f :=
      hsub.eq_of_length (h.trans (colCells_length df f).symm)
    exact (List.filter_eq_self.mp heq) (df.cellAt f r) (List.mem_map_of_mem _ hr)
  · intro h
    have heq : (df.colCells f).filter Option.isSome = df.colCells f := by
      apply List.filter_eq_self.mpr
      intro c hc
      rcases List.mem_map.mp hc with ⟨r, hr, rfl⟩
      exact h r hr
    rw [heq, colCells_length]

/-- Counterexample to claim C6: with all required columns present but
zero rows, every required-field cell is vacuously non-empty, yet the
overall completeness is 0, not 1 — the claimed characterisation of the
value 1.0 fails for zero-row tables. -/
theorem completeness_vacuous_zero_rows :
    presentRequired stakeholderMappingSchema dfStakeZeroRows ≠ [] ∧
    (∀ f ∈ presentRequired stakeholderMappingSchema dfStakeZeroRows,
      ∀ r ∈ dfStakeZeroRows.rows, (dfStakeZeroRows.cellAt f r).isSome = true) ∧
    overallCompleteness stakeholderMappingSchema dfStakeZeroRows = 0 := by
  refine ⟨by decide, ?_, ?_⟩
  · intro f _ r hr
    exact absurd hr (by simp [dfStakeZeroRows])
  · rw [overallCompleteness,
      if_neg (by decide :
        ¬ totalCells stakeholderMappingSchema dfStakeZeroRows > 0)]

/-- Claim C6 (amended): with at least one required field present, the
overall completeness is the row-weighted quotient
sum(filled)/sum(total), lies in [0, 1], and equals 1 iff the table has
at least one row and every required-field cell of every row is
non-empty; when the table has zero rows, the overall completeness and
every per-field completeness equal 0. -/
theorem overall_completeness_spec (s : Schema) (df : Table)
    (hp : presentRequired s df ≠ []) :
    overallCompleteness s df =
      (if totalCells s df > 0 then
        (totalFilled s df : ℚ) / (totalCells s df : ℚ) else 0) ∧
    0 ≤ overallCompleteness s df ∧
    overallCompleteness s df ≤ 1 ∧
    (overallCompleteness s df = 1 ↔
      df.rows ≠ [] ∧ ∀ f ∈ presentRequired s df, ∀ r ∈ df.rows,
        (df.cellAt f r).isSome = true) ∧
    (df.rows = [] →
      overallCompleteness s df = 0 ∧
      ∀ f ∈ presentRequired s df, fieldCompleteness df f = 0) := by
  have hTF := totalFilled_le s df
  refine ⟨rfl, ?_, ?_, ?_, ?_⟩
  · by_cases htc : totalCells s df > 0
    · rw [overallCompleteness, if_pos htc]
      positivity
    · rw [overallCompleteness, if_neg htc]
  · by_cases htc : totalCells s df > 0
    · rw [overallCompleteness, if_pos htc]
      apply div_le_one_of_le₀
      · exact_mod_cast hTF
      · positivity
    · rw [overallCompleteness, if_neg htc]
      norm_num
  · by_cases htc : totalCells s df > 0
    · have hrows : df.rows.length > 0 := by
        rcases Nat.eq_zero_or_pos df.rows.length with h0 | hpos
        · rw [totalCells, h0, Nat.mul_zero] at htc
          exact absurd htc (by decide)
        · exact hpos
      have hrne : df.rows ≠ [] := by
        intro hnil
        rw [hnil] at hrows
        exact absurd hrows (by decide)
      rw [overallCompleteness, if_pos htc]
      have hcne : (totalCells s df : ℚ) ≠ 0 := by
        exact_mod_cast Nat.pos_iff_ne_zero.mp htc
      rw [div_eq_one_iff_eq hcne]
      rw [Nat.cast_inj]
      have hb : ∀ x ∈ (presentRequired s df).map (fieldFilled df),
          x ≤ df.rows.length := by
        intro x hx
        rcases List.mem_map.mp hx with ⟨f, _, rfl⟩
        exact fieldFilled_le df f
      rw [totalFilled, totalCells, ← List.length_map (presentRequired s df) (fieldFilled df),
        sum_eq_length_mul_iff hb]
      constructor
      · intro hall
        refine ⟨hrne, ?_⟩
        intro f hf
        exact (fieldFilled_eq_iff df f).mp
          (hall (fieldFilled df f) (List.mem_map_of_mem _ hf))
      · rintro ⟨-, hall⟩ x hx
        rcases List.mem_map.mp hx with ⟨f, hf, rfl⟩
        exact (fieldFilled_eq_iff df f).mpr (hall f hf)
    · have hzero : df.rows.length = 0 := by
        rcases Nat.eq_zero_or_pos df.rows.length with h0 | hpos
        · exact h0
        · exfalso
          apply htc
          rw [totalCells]
          have hlen : 0 < (presentRequired s df).length :=
            List.length_pos.mpr hp
          exact Nat.mul_pos hlen hpos
      have hrnil : df.rows = [] := List.length_eq_zero.mp hzero
      rw [overallCompleteness, if_neg htc]
      constructor
      · intro h01
        exact absurd h01 (by norm_num)
      · rintro ⟨hne, -⟩
        exact absurd hrnil hne
  · intro hnil
    have htc : ¬ totalCells s df > 0 := by
      rw [totalCells, hnil]
      simp
    refine ⟨by rw [overallCompleteness, if_neg htc], ?_⟩
    intro f _
    rw [fieldCompleteness, if_neg (by rw [hnil]; simp)]

/-- Witness for claim C6 (amended): a fully filled one-row
Stakeholder-Mapping table has overall completeness exactly 1. -/
theorem overall_completeness_spec_witness :
    0 ≤ overallCompleteness stakeholderMappingSchema dfStakeFull ∧
    overallCompleteness stakeholderMappingSchema dfStakeFull = 1 := by
  have h := overall_completeness_spec stakeholderMappingSchema dfStakeFull (by decide)
  exact ⟨h.2.1, h.2.2.2.1.mpr ⟨by decide, by decide⟩⟩

/-! ## Claim C7 -/

/-- Counterexample to claim C7: a directory of 3 loadable files and 1
corrupt file (whose name matches a registered template prefix) yields
4 reports with ZERO ERROR entries, not exactly one — the corrupt file
is caught inside `validate` and contributes a REJECTED report, so the
batch-level ERROR sentinel is never produced for it. -/
theorem batch_corrupt_file_not_error :
    (validateBatch batchDir).length = 4 ∧
    ∀ r ∈ validateBatch batchDir, BatchReport.status r ≠ "ERROR" := by
  have hb : validateBatch batchDir =
      [.full "2_Stakeholder_Mapping_PT16.xlsx"
        (runValidate "2_Stakeholder_Mapping" stakeholderMappingSchema
          (.workbook [("Stakeholder Mapping", stakeGridOk)])),
       .full "2_Stakeholder_Mapping_EL54.xlsx"
        (runValidate "2_Stakeholder_Mapping" stakeholderMappingSchema
          (.workbook [("Stakeholder Mapping", stakeGridOk)])),
       .full "2_Stakeholder_Mapping_LT01.xlsx"
        (runValidate "2_Stakeholder_Mapping" stakeholderMappingSchema
          (.workbook [("Stakeholder Mapping", stakeGridOk)])),
       .full "1_Organization_Registry_PT16.xlsx"
        (runValidate "1_Organization_Registry" organizationRegistrySchema
          (.loadFailure "File is not a zip file"))] := rfl
  constructor
  · rw [hb]
    rfl
  · intro r hr
    rw [hb] at hr
    simp only [List.mem_cons, List.not_mem_nil, or_false] at hr
    rcases hr with rfl | rfl | rfl | rfl <;>
      exact runValidate_status_ne_error _ _ _

/-- Claim C7 (amended): batch validation yields one report per
discovered file and never raises; an exception escaping the
single-file entry point (such as an unknown template) is converted
into an ERROR entry without aborting the rest, and an ERROR entry
arises only from such an escaped exception; a corrupt file whose name
matches a template prefix instead contributes a full report whose
status is REJECTED with the load failure recorded. -/
theorem validate_batch_isolation (files : List BatchFile) :
    (validateBatch files).length = files.length ∧
    (∀ f ∈ files, ∀ e, validateFile f.name f.input = Except.error e →
      BatchReport.errorEntry f.name [e] ∈ validateBatch files) ∧
    (∀ r ∈ validateBatch files, BatchReport.status r = "ERROR" →
      ∃ f ∈ files, ∃ e, validateFile f.name f.input = Except.error e) ∧
    (∀ f ∈ files, ∀ msg p, f.input = FileInput.loadFailure msg →
      identifyTemplate f.name = Except.ok p →
      validateFile f.name f.input =
        Except.ok (generateReport ["Failed to load file: " ++ msg] [] []) ∧
      (generateReport ["Failed to load file: " ++ msg] [] []).status =
        "REJECTED") := by
  refine ⟨List.length_map _ _, ?_, ?_, ?_⟩
  · intro f hf e hve
    apply List.mem_map.mpr
    refine ⟨f, hf, ?_⟩
    rw [hve]
  · intro r hr herr
    rcases List.mem_map.mp hr with ⟨f, hf, rfl⟩
    cases hvf : validateFile f.name f.input with
    | ok r0 =>
      rw [hvf] at herr
      rcases validateFile_ok_inv hvf with ⟨p, -, rfl⟩
      exact absurd herr (runValidate_status_ne_error _ _ _)
    | error e =>
      exact ⟨f, hf, e, hvf⟩
  · intro f hf msg p hinput hid
    rw [hinput, validateFile_of_identify hid]
    exact ⟨rfl, generateReport_rejected _ _ (by simp)⟩

/-- Witness for claim C7 (amended): a concrete two-file batch — one
unknown-template file converted to an ERROR entry, one template-matched
corrupt file returned as a full report. -/
theorem validate_batch_isolation_witness :
    (validateBatch batchDirW).length = 2 ∧
    BatchReport.errorEntry "Notes.xlsx" ["Unknown template type: Notes.xlsx"] ∈
      validateBatch batchDirW ∧
    validateFile "3_Value_Chain_Mapping_X.xlsx" (FileInput.loadFailure "corrupt") =
      Except.ok (generateReport ["Failed to load file: corrupt"] [] []) := by
  have h := validate_batch_isolation batchDirW
  refine ⟨h.1, ?_, ?_⟩
  · exact h.2.1 ⟨"Notes.xlsx", .workbook []⟩ (List.mem_cons_self _ _)
      "Unknown template type: Notes.xlsx" rfl
  · exact (h.2.2.2 ⟨"3_Value_Chain_Mapping_X.xlsx", .loadFailure "corrupt"⟩
      (List.mem_cons_of_mem _ (List.mem_cons_self _ _)) "corrupt"
      ("3_Value_Chain_Mapping", valueChainMappingSchema) rfl rfl).1

/-! ## Claim C8 -/

/-- Counterexample to claim C8: with zero required fields present the
hard error is recorded, yet the remaining checks are NOT aborted — the
dropdown-validation and quality-metrics checks still run and
contribute entries to the per-check mapping. -/
theorem no_required_fields_checks_still_run :
    "No required fields found in submission" ∈
      (validateTable "2_Stakeholder_Mapping" stakeholderMappingSchema
        dfNoReqCols).errors ∧
    "dropdown_validation" ∈
      ((validateTable "2_Stakeholder_Mapping" stakeholderMappingSchema
        dfNoReqCols).results.map CheckEntry.name) ∧
    "quality_metrics" ∈
      ((validateTable "2_Stakeholder_Mapping" stakeholderMappingSchema
        dfNoReqCols).results.map CheckEntry.name) := by
  refine ⟨?_, ?_, ?_⟩ <;> decide

/-- Claim C8 (amended): with zero required fields present, the
completeness check records the hard error (forcing REJECTED) and skips
its own result entry, but it does not abort the remaining checks: the
dropdown and quality-metrics checks still run and contribute their
entries to the per-check mapping. -/
theorem no_required_fields_error_continues (t : String) (s : Schema) (df : Table)
    (hp : presentRequired s df = []) :
    completenessErrors s df = ["No required fields found in submission"] ∧
    completenessEntryList s df = [] ∧
    (validateTable t s df).status = "REJECTED" ∧
    dropdownEntry s df ∈ (validateTable t s df).results ∧
    qualityEntry ∈ (validateTable t s df).results := by
  have h1 : completenessErrors s df = ["No required fields found in submission"] := by
    rw [completenessErrors, if_pos hp]
  have h2 : completenessEntryList s df = [] := by
    rw [completenessEntryList, if_pos hp]
  have hmem : "No required fields found in submission" ∈
      (validateTable t s df).errors := by
    rw [validateTable_def, generateReport_errors, h1]
    simp
  refine ⟨h1, h2, validateTable_rejected_of_mem hmem, ?_, ?_⟩
  · rw [validateTable_def, generateReport_results]
    simp
  · rw [validateTable_def, generateReport_results]
    simp

/-- Witness for claim C8 (amended) at a concrete table carrying none of
the Policy-Analysis required columns. -/
theorem no_required_fields_error_continues_witness :
    completenessErrors policyAnalysisSchema dfOnlyNotes =
      ["No required fields found in submission"] ∧
    (validateTable "9_Policy_Analysis" policyAnalysisSchema dfOnlyNotes).status =
      "REJECTED" := by
  have h := no_required_fields_error_continues "9_Policy_Analysis"
    policyAnalysisSchema dfOnlyNotes (by decide)
  exact ⟨h.1, h.2.2.1⟩

/-! ## Claim C10 -/

theorem mem_firstSeenAux (l : List String) (seen : List String) (x : String) :
    x ∈ firstSeenAux seen l ↔ x ∈ l ∧ x ∉ seen := by
  induction l generalizing seen with
  | nil => simp [firstSeenAux]
  | cons a t ih =>
    rw [firstSeenAux]
    by_cases h : a ∈ seen
    · rw [if_pos (List.elem_iff.mpr h), ih]
      constructor
      · rintro ⟨hx, hs⟩
        exact ⟨List.mem_cons_of_mem _ hx, hs⟩
      · rintro ⟨hx, hs⟩
        rcases List.mem_cons.mp hx with rfl | hx2
        · exact absurd h hs
        · exact ⟨hx2, hs⟩
    · rw [if_neg (fun hc => h (List.elem_iff.mp hc))]
      simp only [List.mem_cons, ih, List.mem_cons]
      constructor
      · rintro (rfl | ⟨hx, hs⟩)
        · exact ⟨Or.inl rfl, h⟩
        · exact ⟨Or.inr hx, fun hseen => hs (Or.inr hseen)⟩
      · rintro ⟨rfl | hx, hs⟩
        · exact Or.inl rfl
        · by_cases hxa : x = a
          · exact Or.inl hxa
          · exact Or.inr ⟨hx, fun hc => hc.elim hxa hs⟩

/-- Claim C10: an empty-string cell in a present schema-declared
dropdown column counts as an observed value — when the empty string is
not among the allowed values, the dropdown check fails, the empty
string appears in that field's invalid-value list, and the run is
REJECTED; null (absent) cells, by contrast, contribute no observed
value at all. -/
theorem dropdown_empty_string_observed (t : String) (s : Schema) (df : Table)
    (field : String) (allowed : List String)
    (hdd : (field, allowed) ∈ s.dropdowns)
    (hcol : df.hasCol field = true)
    (hobs : some (CellVal.str "") ∈ df.colCells field)
    (hna : allowed.contains "" = false) :
    "" ∈ observedValues df field ∧
    (field, invalidFor df field allowed) ∈ dropdownInvalid s df ∧
    "" ∈ invalidFor df field allowed ∧
    dropdownStatus s df = "FAIL" ∧
    (validateTable t s df).status = "REJECTED" ∧
    (∀ g : Table, (∀ c ∈ g.colCells field, c = none) →
      observedValues g field = []) := by
  have hobs2 : "" ∈ observedValues df field := by
    rw [observedValues, mem_firstSeenAux]
    refine ⟨List.mem_filterMap.mpr ⟨some (CellVal.str ""), hobs, rfl⟩, ?_⟩
    simp
  have hinv : "" ∈ invalidFor df field allowed := by
    rw [invalidFor]
    apply List.mem_filter.mpr
    refine ⟨hobs2, ?_⟩
    rw [hna]
    rfl
  have hinvne : invalidFor df field allowed ≠ [] := List.ne_nil_of_mem hinv
  have hmap : (field, invalidFor df field allowed) ∈ dropdownInvalid s df := by
    apply List.mem_filterMap.mpr
    refine ⟨(field, allowed), hdd, ?_⟩
    rw [if_pos hcol, if_neg hinvne]
  have hstat : dropdownStatus s df = "FAIL" := by
    rw [dropdownStatus, if_neg (List.ne_nil_of_mem hmap)]
  have hmsg : (field ++ ": Invalid values found: " ++
      ", ".intercalate (invalidFor df field allowed)) ∈ dropdownErrors s df := by
    rw [dropdownErrors]
    exact List.mem_map_of_mem _ hmap
  have hrej : (validateTable t s df).status = "REJECTED" := by
    apply validateTable_rejected_of_mem (m := field ++ ": Invalid values found: " ++
      ", ".intercalate (invalidFor df field allowed))
    rw [validateTable_def, generateReport_errors]
    exact List.mem_append_right _ hmsg
  refine ⟨hobs2, hmap, hinv, hstat, hrej, ?_⟩
  intro g hall
  rw [observedValues]
  have : (g.colCells field).filterMap (fun c => c.map textify) = [] := by
    apply List.filterMap_eq_nil_iff.mpr
    intro c hc
    rw [hall c hc]
    rfl
  rw [this]
  rfl

/-- Witness for claim C10 at a concrete table whose `Influence` cell
holds the empty string. -/
theorem dropdown_empty_string_observed_witness :
    dropdownStatus stakeholderMappingSchema dfInfluenceEmpty = "FAIL" ∧
    (validateTable "2_Stakeholder_Mapping" stakeholderMappingSchema
      dfInfluenceEmpty).status = "REJECTED" := by
  have h := dropdown_empty_string_observed "2_Stakeholder_Mapping"
    stakeholderMappingSchema dfInfluenceEmpty "Influence" ["High", "Medium", "Low"]
    (by decide) (by decide) (by decide) (by decide)
  exact ⟨h.2.2.2.1, h.2.2.2.2.1⟩

end BioRed
